import Mathlib

/-!
# Verification of the image-captioning / VQA Flask application

A shallow embedding of `src/app.py` (repository
`nilesh297/Image-to-text-conversion`).  Pure request-handling logic is
translated into executable Lean functions; the external services (PIL image
loading, the BLIP caption model/processor, the huggingface VQA `pipeline`)
are modelled as an oracle environment of fallible functions — a Python
exception raised by a library call is an `Except.error` value.  The file
system under the upload folder is explicit state (an association list from
paths to byte contents), and each HTTP handler returns its response
together with the resulting file system and a trace of the externally
visible actions it performed (file saves, model invocations).
-/

set_option autoImplicit false

namespace App

/-- Raw file contents (a byte string). -/
abbrev Bytes := List Nat

/-- A Python exception value; only its message is observable (it is printed). -/
structure PyError where
  msg : String
deriving DecidableEq, Repr

/-! ## Opaque handles to external library objects

`app.py` treats the model objects as black boxes: it only ever passes them
to library calls.  Each handle type is a token; the oracle environment
below assigns behaviour to library calls made with a handle. -/

/-- Handle to `BlipForConditionalGeneration` for captioning (`caption_model`). -/
structure CaptionModel where
  id : Nat
deriving DecidableEq, Repr

/-- Handle to `BlipProcessor` for captioning (`caption_processor`). -/
structure CaptionProcessor where
  id : Nat
deriving DecidableEq, Repr

/-- Handle to the huggingface `pipeline("vqa", ...)` object (`vqa_pipeline`). -/
structure VqaPipeline where
  id : Nat
deriving DecidableEq, Repr

/-- Handle to `BlipForConditionalGeneration` for QA (`qa_model`, dead branch). -/
structure QaModel where
  id : Nat
deriving DecidableEq, Repr

/-- Handle to `BlipProcessor` for QA (`qa_processor`, dead branch). -/
structure QaProcessor where
  id : Nat
deriving DecidableEq, Repr

/-- A loaded, RGB-converted PIL image (`Image.open(path).convert("RGB")`). -/
structure PILImage where
  data : Bytes
deriving DecidableEq, Repr

/-- Tensor batch produced by a processor call (`return_tensors="pt"`). -/
structure Tensors where
  id : Nat
deriving DecidableEq, Repr

/-- Token output of a `generate` call. -/
structure GenOutput where
  id : Nat
deriving DecidableEq, Repr

/-- One candidate dict returned by the VQA pipeline: `{"answer": ..., "score": ...}`. -/
structure VqaCandidate where
  answer : String
  score : Nat
deriving DecidableEq, Repr

/-! ## Module-level state and the file system -/

/-- The module-level names bound by the `try:` block at lines 15–23 of
`app.py`.  A name that was never assigned (because the `try:` block failed
before reaching it) is `none`; referencing it raises a `NameError`. -/
structure ModuleState where
  caption_model : Option CaptionModel
  caption_processor : Option CaptionProcessor
  use_pipeline : Option Bool
  vqa_pipeline : Option VqaPipeline
  qa_model : Option QaModel
  qa_processor : Option QaProcessor
deriving DecidableEq, Repr

/-- The file system, restricted to the files the app writes: a map from
path to contents, most recent write first. -/
abbrev FS := List (String × Bytes)

/-- `FileStorage.save(path)`: (over)write the file at `path`. -/
def fsWrite (fs : FS) (path : String) (content : Bytes) : FS :=
  (path, content) :: fs.filter (fun e => e.1 ≠ path)

/-- Read the file at `path`, if present. -/
def fsRead (fs : FS) (path : String) : Option Bytes :=
  fs.lookup path

/-- Referencing a module-level name: `NameError` if it was never assigned. -/
def getName {α : Type} (o : Option α) : Except PyError α :=
  match o with
  | some v => .ok v
  | none => .error ⟨"NameError: name is not defined"⟩

/-! ## The oracle environment for external library calls

Each field gives the outcome (normal return or raised exception) of one
library call, as a function of the handle and the arguments the app passes.
The app's own logic is quantified over every such environment. -/

structure InferenceEnv where
  /-- `Image.open(image_path).convert("RGB")`, reading from the file system. -/
  openConvert : FS → String → Except PyError PILImage
  /-- `caption_processor(images=image, return_tensors="pt")`. -/
  capProcess : CaptionProcessor → PILImage → Except PyError Tensors
  /-- `caption_model.generate(**inputs)`. -/
  capGenerate : CaptionModel → Tensors → Except PyError GenOutput
  /-- `caption_processor.decode(output[0], skip_special_tokens=True)`. -/
  capDecode : CaptionProcessor → GenOutput → Except PyError String
  /-- `vqa_pipeline(image=image, question=question)`: a list of candidate dicts. -/
  vqaRun : VqaPipeline → PILImage → String → Except PyError (List VqaCandidate)
  /-- `qa_processor(images=image, text=prompt, return_tensors="pt")`. -/
  qaProcess : QaProcessor → PILImage → String → Except PyError Tensors
  /-- `qa_model.generate(**inputs, max_length=50, num_beams=5, early_stopping=True)`. -/
  qaGenerate : QaModel → Tensors → Except PyError GenOutput
  /-- `qa_processor.decode(output[0], skip_special_tokens=True)`. -/
  qaDecode : QaProcessor → GenOutput → Except PyError String

/-- Outcomes of the `from_pretrained` / `pipeline` loads attempted at startup. -/
structure LoadEnv where
  loadCaptionModel : Except PyError CaptionModel
  loadCaptionProcessor : Except PyError CaptionProcessor
  loadVqaPipeline : Except PyError VqaPipeline

/-- `True` exactly when the `Except` is a raised exception. -/
def exceptFailed {α : Type} : Except PyError α → Bool
  | .ok _ => false
  | .error _ => true

/-! ## Startup: the `try:` block at lines 15–25

The loads run in order; the first exception aborts the block, is caught by
the `except`, and is printed.  `use_pipeline = True` is a literal, so the
`else` branch loading `qa_model` / `qa_processor` never executes. -/

/-- Module initialization: returns the resulting module state and the list
of printed log lines. -/
def startup (lenv : LoadEnv) : ModuleState × List String :=
  match lenv.loadCaptionModel with
  | .error e => (⟨none, none, none, none, none, none⟩, ["Error loading models: " ++ e.msg])
  | .ok cm =>
    match lenv.loadCaptionProcessor with
    | .error e => (⟨some cm, none, none, none, none, none⟩, ["Error loading models: " ++ e.msg])
    | .ok cp =>
      match lenv.loadVqaPipeline with
      | .error e =>
          (⟨some cm, some cp, some true, none, none, none⟩, ["Error loading models: " ++ e.msg])
      | .ok vp => (⟨some cm, some cp, some true, some vp, none, none⟩, [])

/-! ## werkzeug's `secure_filename`

External library function (not in `src/`), modelled from its documented
algorithm on POSIX: NFKD-normalize and encode to ASCII ignoring errors
(modelled as dropping non-ASCII code points, which is exact on ASCII
input), replace the path separator `/` by a space, split on whitespace and
re-join with `_`, delete every character outside `[A-Za-z0-9_.-]`, and
strip leading/trailing `.` and `_`. -/

/-- Python `str.isspace` for the ASCII range (space, tab, LF, VT, FF, CR). -/
def pyIsSpace (c : Char) : Bool :=
  c = ' ' || c = '\t' || c = '\n' || c = '\r' || c = Char.ofNat 11 || c = Char.ofNat 12

/-- Characters kept by werkzeug's `_filename_ascii_strip_re`. -/
def safeChar (c : Char) : Bool :=
  ('A' ≤ c && c ≤ 'Z') || ('a' ≤ c && c ≤ 'z') || ('0' ≤ c && c ≤ '9') ||
    c = '_' || c = '.' || c = '-'

/-- Python `str.strip(chars)` on a character list: remove characters in
`cs` from both ends. -/
def pyStrip (cs : List Char) (l : List Char) : List Char :=
  ((l.dropWhile (fun c => cs.contains c)).reverse.dropWhile (fun c => cs.contains c)).reverse

/-- Split a character list at every character satisfying `p`, keeping empty
pieces (the semantics of Python `str.split(sep)` per separator occurrence);
never returns the empty list. -/
def splitP (p : Char → Bool) : List Char → List (List Char)
  | [] => [[]]
  | x :: xs =>
    if p x then [] :: splitP p xs
    else
      match splitP p xs with
      | [] => [[x]]
      | y :: ys => (x :: y) :: ys

/-- Python `str.split()` (no separator): split on whitespace runs, no
empty pieces. -/
def pySplitWs (l : List Char) : List (List Char) :=
  (splitP pyIsSpace l).filter (fun t => !t.isEmpty)

/-- Python `"_".join(parts)`. -/
def joinSep (sep : Char) : List (List Char) → List Char
  | [] => []
  | [x] => x
  | x :: xs => x ++ sep :: joinSep sep xs

/-- `werkzeug.utils.secure_filename`, on the character list. -/
def secure_filename_chars (name : List Char) : List Char :=
  let ascii := name.filter (fun c => c.toNat < 128)
  let noSep := ascii.map (fun c => if c = '/' then ' ' else c)
  let joined := joinSep '_' (pySplitWs noSep)
  let stripped := joined.filter safeChar
  pyStrip ['.', '_'] stripped

/-- `werkzeug.utils.secure_filename`. -/
def secure_filename (name : String) : String :=
  String.mk (secure_filename_chars name.data)

/-! ## Path manipulation -/

/-- The module constant `UPLOAD_FOLDER = 'static/uploads'`. -/
def UPLOAD_FOLDER : String := "static/uploads"

/-- Whether a string starts with the POSIX path separator. -/
def startsWithSlash (s : String) : Bool :=
  match s.data with
  | [] => false
  | c :: _ => c = '/'

/-- Whether a string ends with the POSIX path separator. -/
def endsWithSlash (s : String) : Bool :=
  match s.data.getLast? with
  | some c => c = '/'
  | none => false

/-- `os.path.join(a, b)` on POSIX with two components. -/
def ospath_join (a b : String) : String :=
  if startsWithSlash b then b
  else if a.data.isEmpty || endsWithSlash a then a ++ b
  else a ++ "/" ++ b

/-- Whether a save-target path names a directory that exists while the app
runs: `os.makedirs(UPLOAD_FOLDER, exist_ok=True)` (line 11) guarantees
`static` and `static/uploads`, and any target the app spells with a
trailing separator resolves to the upload folder itself. -/
def isDirPath (p : String) : Bool :=
  endsWithSlash p || p = "static" || p = "static/uploads"

/-- `image.save(image_path)`: werkzeug's `FileStorage.save` opens the
target with `open(dst, "wb")`.  If the target is an existing directory the
open raises `IsADirectoryError`; otherwise the file is (over)written
(truncating any previous contents). -/
def fsSave (fs : FS) (path : String) (content : Bytes) : Except PyError FS :=
  if isDirPath path then .error ⟨"IsADirectoryError"⟩
  else .ok (fsWrite fs path content)

/-- Python `str.split(sep)` for the single-character separator `/`. -/
def splitSlash (l : List Char) : List (List Char) :=
  splitP (fun x => x = '/') l

/-- Python `url.split("/")[-1]`: the last piece of the split (valid because
`split` never returns an empty list). -/
def lastSeg (s : String) : String :=
  String.mk ((splitSlash s.data).getLastD [])

/-- The storage path the `/answer` handler reconstructs from a
client-supplied image URL (line 105 of `app.py`):
`os.path.join(app.config["UPLOAD_FOLDER"], image_url.split("/")[-1])`. -/
def reconstruct_path (image_url : String) : String :=
  ospath_join UPLOAD_FOLDER (lastSeg image_url)

/-! ## HTTP requests and responses -/

/-- An uploaded file part: user-supplied original filename plus contents. -/
structure FileStorage where
  filename : String
  content : Bytes
deriving DecidableEq, Repr

/-- The parts of a request the app reads: `request.files` and `request.form`
(multidicts; indexing returns the first value for a key). -/
structure Request where
  files : List (String × FileStorage)
  form : List (String × String)

/-- A JSON response: status code and the `jsonify`d object (all values in
this app are strings). -/
structure Response where
  status : Nat
  body : List (String × String)
deriving DecidableEq, Repr

/-- An externally visible action performed while handling a request. -/
inductive Event where
  /-- The call `image.save(image_path)` was made with this target path and
  these contents (recorded whether or not the save raises). -/
  | save (path : String) (content : Bytes)
  /-- `caption_model.generate(...)` was invoked for the image at `path`. -/
  | captionInvoke (path : String)
  /-- `vqa_pipeline(image=..., question=...)` was invoked. -/
  | vqaInvoke (path question : String)
  /-- `qa_model.generate(...)` was invoked (dead branch). -/
  | qaInvoke (path question : String)
deriving DecidableEq, Repr

/-- What a handler produces: its result (`.error` is an exception that
escapes the handler and becomes a framework 500), the resulting file
system, and the trace of external actions. -/
structure HandlerOut where
  result : Except PyError Response
  fs : FS
  events : List Event

/-! ## The inference helpers (lines 28–58)

Each helper is a `try:` body — a chain of fallible external calls — plus
the `except` clause mapping any exception to a fixed sentinel string.  The
chain is split out so that theorems can talk about "some step failed". -/

/-- The `try:` body of `generate_caption` (lines 30–34), with the events
it performs. -/
def caption_chain (env : InferenceEnv) (st : ModuleState) (fs : FS) (image_path : String) :
    Except PyError String × List Event :=
  match env.openConvert fs image_path with
  | .error e => (.error e, [])
  | .ok image =>
    match getName st.caption_processor with
    | .error e => (.error e, [])
    | .ok proc =>
      match env.capProcess proc image with
      | .error e => (.error e, [])
      | .ok inputs =>
        match getName st.caption_model with
        | .error e => (.error e, [])
        | .ok model =>
          match env.capGenerate model inputs with
          | .error e => (.error e, [.captionInvoke image_path])
          | .ok output => (env.capDecode proc output, [.captionInvoke image_path])

/-- `generate_caption` (lines 28–37): any exception in the body is caught
and becomes the sentinel `"Error generating caption."`. -/
def generate_caption (env : InferenceEnv) (st : ModuleState) (fs : FS) (image_path : String) :
    String × List Event :=
  match caption_chain env st fs image_path with
  | (.ok caption, evs) => (caption, evs)
  | (.error _, evs) => ("Error generating caption.", evs)

/-- The `try:` body of `answer_question_pipeline` up to the pipeline call
(lines 42–43). -/
def vqa_chain (env : InferenceEnv) (st : ModuleState) (fs : FS) (image_path question : String) :
    Except PyError (List VqaCandidate) × List Event :=
  match env.openConvert fs image_path with
  | .error e => (.error e, [])
  | .ok image =>
    match getName st.vqa_pipeline with
    | .error e => (.error e, [])
    | .ok pl => (env.vqaRun pl image question, [.vqaInvoke image_path question])

/-- `answer_question_pipeline` (lines 40–47):
`result[0]["answer"] if result else "No answer found."`, any exception
caught and turned into `"Error answering question."`. -/
def answer_question_pipeline (env : InferenceEnv) (st : ModuleState) (fs : FS)
    (image_path question : String) : String × List Event :=
  match vqa_chain env st fs image_path question with
  | (.ok [], evs) => ("No answer found.", evs)
  | (.ok (c :: _), evs) => (c.answer, evs)
  | (.error _, evs) => ("Error answering question.", evs)

/-- The `try:` body of `answer_question_model` (lines 51–55). -/
def qa_chain (env : InferenceEnv) (st : ModuleState) (fs : FS) (image_path question : String) :
    Except PyError String × List Event :=
  match env.openConvert fs image_path with
  | .error e => (.error e, [])
  | .ok image =>
    match getName st.qa_processor with
    | .error e => (.error e, [])
    | .ok proc =>
      match env.qaProcess proc image
          ("Answer the following question based on the image: " ++ question) with
      | .error e => (.error e, [])
      | .ok inputs =>
        match getName st.qa_model with
        | .error e => (.error e, [])
        | .ok model =>
          match env.qaGenerate model inputs with
          | .error e => (.error e, [.qaInvoke image_path question])
          | .ok output => (env.qaDecode proc output, [.qaInvoke image_path question])

/-- `answer_question_model` (lines 49–58): sentinel on any exception. -/
def answer_question_model (env : InferenceEnv) (st : ModuleState) (fs : FS)
    (image_path question : String) : String × List Event :=
  match qa_chain env st fs image_path question with
  | (.ok answer, evs) => (answer, evs)
  | (.error _, evs) => ("Error answering question.", evs)

/-! ## The route handlers (lines 81–108) -/

/-- `upload_image` (lines 81–96): 400 when no `image` file part, otherwise
save under the sanitized filename, generate a caption, and return the
public URL with the caption.  The `image.save(image_path)` call is not
inside any `try:` — if it raises (the target is an existing directory,
which happens exactly when the sanitized filename is empty), the exception
escapes the handler and becomes a framework 500. -/
def upload_image (env : InferenceEnv) (st : ModuleState) (fs : FS) (req : Request) :
    HandlerOut :=
  match req.files.lookup "image" with
  | none => ⟨.ok ⟨400, [("error", "No image uploaded")]⟩, fs, []⟩
  | some image =>
    let filename := secure_filename image.filename
    let image_path := ospath_join UPLOAD_FOLDER filename
    match fsSave fs image_path image.content with
    | .error e => ⟨.error e, fs, [.save image_path image.content]⟩
    | .ok fs1 =>
      let cap := generate_caption env st fs1 image_path
      ⟨.ok ⟨200, [("image_url", "/static/uploads/" ++ filename), ("caption", cap.1)]⟩,
        fs1, .save image_path image.content :: cap.2⟩

/-- `answer_image_question` (lines 98–108): 400 when either form field is
missing; otherwise reconstruct the storage path from the URL and dispatch
on `use_pipeline` (a `NameError` here escapes the handler). -/
def answer_image_question (env : InferenceEnv) (st : ModuleState) (fs : FS) (req : Request) :
    HandlerOut :=
  match req.form.lookup "image", req.form.lookup "question" with
  | some image_url, some question =>
    let image_path := reconstruct_path image_url
    (match st.use_pipeline with
     | none => ⟨.error ⟨"NameError: name use_pipeline is not defined"⟩, fs, []⟩
     | some b =>
       let ans :=
         if b then answer_question_pipeline env st fs image_path question
         else answer_question_model env st fs image_path question
       ⟨.ok ⟨200, [("answer", ans.1)]⟩, fs, ans.2⟩)
  | _, _ => ⟨.ok ⟨400, [("error", "No image or question provided")]⟩, fs, []⟩

/-! ## Concrete fixtures

Concrete environments, module states and requests used to evaluate the
embedding on sample inputs. -/

/-- A fully initialized module state (successful startup). -/
def stFull : ModuleState := ⟨some ⟨1⟩, some ⟨2⟩, some true, some ⟨3⟩, none, none⟩

/-- The module state after a failed first load. -/
def stNone : ModuleState := ⟨none, none, none, none, none, none⟩

/-- An environment in which every library call succeeds. -/
def envOk : InferenceEnv :=
  ⟨fun _ _ => .ok ⟨[7]⟩, fun _ _ => .ok ⟨10⟩, fun _ _ => .ok ⟨11⟩, fun _ _ => .ok "a cat",
   fun _ _ _ => .ok [⟨"yes", 9⟩, ⟨"no", 1⟩], fun _ _ _ => .ok ⟨12⟩, fun _ _ => .ok ⟨13⟩,
   fun _ _ => .ok "yes"⟩

/-- An environment in which loading the image always raises
(an unreadable or corrupt image file). -/
def envBadImage : InferenceEnv :=
  ⟨fun _ _ => .error ⟨"cannot identify image file"⟩, fun _ _ => .ok ⟨10⟩,
   fun _ _ => .ok ⟨11⟩, fun _ _ => .ok "a cat", fun _ _ _ => .ok [⟨"yes", 9⟩],
   fun _ _ _ => .ok ⟨12⟩, fun _ _ => .ok ⟨13⟩, fun _ _ => .ok "yes"⟩

/-- An environment in which the VQA pipeline returns no candidates. -/
def envNoCand : InferenceEnv :=
  ⟨fun _ _ => .ok ⟨[7]⟩, fun _ _ => .ok ⟨10⟩, fun _ _ => .ok ⟨11⟩, fun _ _ => .ok "a cat",
   fun _ _ _ => .ok [], fun _ _ _ => .ok ⟨12⟩, fun _ _ => .ok ⟨13⟩, fun _ _ => .ok "yes"⟩

/-- Startup outcomes: everything loads. -/
def lenvOk : LoadEnv := ⟨.ok ⟨1⟩, .ok ⟨2⟩, .ok ⟨3⟩⟩

/-- Startup outcomes: the first load (the caption model) raises. -/
def lenvFirstFail : LoadEnv := ⟨.error ⟨"no network"⟩, .ok ⟨2⟩, .ok ⟨3⟩⟩

/-- Startup outcomes: only the VQA pipeline load raises. -/
def lenvVqaFail : LoadEnv := ⟨.ok ⟨1⟩, .ok ⟨2⟩, .error ⟨"download failed"⟩⟩

/-- A well-formed upload request carrying `cat.jpg`. -/
def reqUpload : Request := ⟨[("image", ⟨"cat.jpg", [1, 2, 3]⟩)], []⟩

/-- An upload request whose file part has an empty filename. -/
def reqUploadEmptyName : Request := ⟨[("image", ⟨"", [4, 5]⟩)], []⟩

/-- A second upload, different contents, same (sanitized) filename. -/
def reqUpload2 : Request := ⟨[("image", ⟨"cat.jpg", [9, 9]⟩)], []⟩

/-- A POST /upload request with no `image` file part. -/
def reqNoFile : Request := ⟨[], [("other", "x")]⟩

/-- A well-formed /answer request. -/
def reqAnswer : Request :=
  ⟨[], [("image", "/static/uploads/cat.jpg"), ("question", "what color")]⟩

/-- An /answer request missing the `question` field. -/
def reqNoQuestion : Request := ⟨[], [("image", "/static/uploads/cat.jpg")]⟩

/-! ## Helper lemmas -/

/-- Reading back a written file returns the written contents. -/
theorem fsRead_fsWrite (fs : FS) (p : String) (c : Bytes) :
    fsRead (fsWrite fs p c) p = some c := by
  simp [fsRead, fsWrite, List.lookup]

/-- `splitP` never returns the empty list. -/
theorem splitP_ne_nil (p : Char → Bool) (l : List Char) : splitP p l ≠ [] := by
  induction l with
  | nil => simp [splitP]
  | cons x xs ih =>
    by_cases h : p x = true
    · simp [splitP, h]
    · simp only [splitP, h, if_neg, Bool.false_eq_true, not_false_eq_true]
      cases hs : splitP p xs with
      | nil => exact absurd hs ih
      | cons y ys => simp

/-- Splitting a list with no separator occurrence gives the singleton. -/
theorem splitP_no_sep (p : Char → Bool) (l : List Char) (h : ∀ x ∈ l, p x = false) :
    splitP p l = [l] := by
  induction l with
  | nil => rfl
  | cons x xs ih =>
    have hx : p x = false := h x (List.mem_cons_self x xs)
    have ih' := ih (fun a ha => h a (List.mem_cons_of_mem x ha))
    simp [splitP, hx, ih']

/-- A list containing a separator splits into at least two pieces. -/
theorem two_le_splitP_length (p : Char → Bool) (l : List Char) (x : Char)
    (hx : x ∈ l) (hpx : p x = true) : 2 ≤ (splitP p l).length := by
  induction l with
  | nil => cases hx
  | cons a as ih =>
    by_cases hpa : p a = true
    · cases hs : splitP p as with
      | nil => exact absurd hs (splitP_ne_nil p as)
      | cons y ys => simp [splitP, hpa, hs]
    · have hax : x ∈ as := by
        rcases List.mem_cons.mp hx with rfl | h
        · exact absurd hpx (by simp [hpa])
        · exact h
      have h2 := ih hax
      cases hs : splitP p as with
      | nil => exact absurd hs (splitP_ne_nil p as)
      | cons y ys =>
        rw [hs] at h2
        simp only [splitP, hpa, if_neg, Bool.false_eq_true, not_false_eq_true, hs]
        simpa using h2

/-- The last piece of a split only depends on the part after the last
separator occurrence. -/
theorem getLastD_splitP_append (p : Char → Bool) (l₁ l₂ : List Char) (x : Char)
    (hpx : p x = true) :
    (splitP p (l₁ ++ x :: l₂)).getLastD [] = (splitP p l₂).getLastD [] := by
  induction l₁ with
  | nil =>
    simp only [List.nil_append, splitP, hpx, if_true, List.getLastD_cons]
  | cons a as ih =>
    by_cases hpa : p a = true
    · simp only [List.cons_append, splitP, hpa, if_true, List.getLastD_cons]
      exact ih
    · have hmem : x ∈ as ++ x :: l₂ := List.mem_append_right as (List.mem_cons_self x l₂)
      have h2 := two_le_splitP_length p (as ++ x :: l₂) x hmem hpx
      cases hs : splitP p (as ++ x :: l₂) with
      | nil => exact absurd hs (splitP_ne_nil _ _)
      | cons y ys =>
        rw [hs] at h2
        cases ys with
        | nil => simp at h2
        | cons z zs =>
          rw [hs] at ih
          simp only [List.getLastD_cons] at ih
          have hs' : splitP p (List.append as (x :: l₂)) = y :: z :: zs := hs
          simp only [List.cons_append, splitP, hpa, if_neg, Bool.false_eq_true,
            not_false_eq_true]
          rw [hs']
          simp only [List.getLastD_cons]
          exact ih

/-- Stripping characters from the ends cannot introduce new characters. -/
theorem mem_pyStrip {cs l : List Char} {a : Char} (h : a ∈ pyStrip cs l) : a ∈ l := by
  unfold pyStrip at h
  rw [List.mem_reverse] at h
  replace h := List.Sublist.mem h (List.dropWhile_sublist _)
  rw [List.mem_reverse] at h
  exact List.Sublist.mem h (List.dropWhile_sublist _)

/-- Every character of a sanitized filename is in `[A-Za-z0-9_.-]`. -/
theorem secure_filename_safe {n : String} {c : Char} (h : c ∈ (secure_filename n).data) :
    safeChar c = true := by
  replace h : c ∈ secure_filename_chars n.data := h
  unfold secure_filename_chars at h
  exact (List.mem_filter.mp (mem_pyStrip h)).2

/-- A sanitized filename contains no path separator. -/
theorem secure_filename_no_slash (n : String) : ∀ c ∈ (secure_filename n).data, c ≠ '/' := by
  intro c hc hslash
  have := secure_filename_safe hc
  rw [hslash] at this
  simp [safeChar] at this

/-- The suffix after the last `/` of `"/static/uploads/" ++ f` is `f`,
for any `f` free of `/`. -/
theorem lastSeg_upload_url (f : String) (hf : ∀ c ∈ f.data, c ≠ '/') :
    lastSeg ("/static/uploads/" ++ f) = f := by
  have hdata : ("/static/uploads/" ++ f).data = "/static/uploads".data ++ '/' :: f.data := by
    have : ("/static/uploads/" ++ f).data = "/static/uploads/".data ++ f.data :=
      String.data_append _ _
    rw [this]
    rfl
  unfold lastSeg splitSlash
  rw [hdata, getLastD_splitP_append _ _ _ _ (by simp),
    splitP_no_sep _ _ (fun x hx => by simpa using hf x hx)]
  rfl

/-- `secure_filename` round-trips through the public URL: the suffix of
the upload URL after its last separator is the sanitized filename again. -/
theorem lastSeg_secure_filename (n : String) :
    lastSeg ("/static/uploads/" ++ secure_filename n) = secure_filename n :=
  lastSeg_upload_url _ (secure_filename_no_slash n)

/-- A sanitized filename never starts with the path separator. -/
theorem startsWithSlash_secure_filename (n : String) :
    startsWithSlash (secure_filename n) = false := by
  unfold startsWithSlash
  cases h : (secure_filename n).data with
  | nil => rfl
  | cons c cs =>
    have hc : c ∈ (secure_filename n).data := by
      rw [h]
      exact List.mem_cons_self c cs
    exact decide_eq_false (secure_filename_no_slash n c hc)

/-- Joining the upload folder with a separator-free component inserts one
separator. -/
theorem ospath_join_upload (f : String) (hs : startsWithSlash f = false) :
    ospath_join UPLOAD_FOLDER f = "static/uploads/" ++ f := by
  unfold ospath_join
  rw [hs]
  rfl

/-- The length of a joined upload path. -/
theorem length_data_join (f : String) :
    ("static/uploads/" ++ f).data.length = 15 + f.data.length := by
  rw [String.data_append, List.length_append]
  have h15 : ("static/uploads/" : String).data.length = 15 := rfl
  omega

/-- A joined path with a non-empty separator-free component does not end
with the separator. -/
theorem endsWithSlash_join_false (f : String) (hne : f.data ≠ [])
    (hf : ∀ c ∈ f.data, c ≠ '/') :
    endsWithSlash ("static/uploads/" ++ f) = false := by
  unfold endsWithSlash
  rw [String.data_append, List.getLast?_append, List.getLast?_eq_getLast_of_ne_nil hne,
    Option.or_some]
  exact decide_eq_false (hf _ (List.getLast_mem hne))

/-- A joined path with a non-empty separator-free component is a plain
file path, not one of the existing directories. -/
theorem isDirPath_join_false (f : String) (hne : f.data ≠ [])
    (hf : ∀ c ∈ f.data, c ≠ '/') :
    isDirPath ("static/uploads/" ++ f) = false := by
  have h1 : ("static/uploads/" ++ f) ≠ "static" := by
    intro he
    have hlen := length_data_join f
    rw [he] at hlen
    have h6 : ("static" : String).data.length = 6 := rfl
    omega
  have h2 : ("static/uploads/" ++ f) ≠ "static/uploads" := by
    intro he
    have hlen := length_data_join f
    rw [he] at hlen
    have h14 : ("static/uploads" : String).data.length = 14 := rfl
    omega
  simp [isDirPath, endsWithSlash_join_false f hne hf, h1, h2]

/-- Saving under a non-empty sanitized filename succeeds and writes the
file. -/
theorem fsSave_secure_ok (n : String) (hne : secure_filename n ≠ "") (fs : FS)
    (c : Bytes) :
    fsSave fs (ospath_join UPLOAD_FOLDER (secure_filename n)) c =
      .ok (fsWrite fs (ospath_join UPLOAD_FOLDER (secure_filename n)) c) := by
  have hdata : (secure_filename n).data ≠ [] := by
    intro h0
    exact hne (String.ext (by rw [h0]))
  have hj := ospath_join_upload (secure_filename n) (startsWithSlash_secure_filename n)
  unfold fsSave
  rw [hj, isDirPath_join_false (secure_filename n) hdata (secure_filename_no_slash n)]
  rfl

/-- The behaviour of a storing upload: with an `image` file part whose
filename sanitizes to a non-empty name, the save succeeds and the handler
returns the 200 response with the public URL and the caption. -/
theorem upload_image_stores (env : InferenceEnv) (st : ModuleState) (fs : FS)
    (req : Request) (img : FileStorage)
    (h : req.files.lookup "image" = some img)
    (hne : secure_filename img.filename ≠ "") :
    upload_image env st fs req =
      ⟨.ok ⟨200, [("image_url", "/static/uploads/" ++ secure_filename img.filename),
          ("caption", (generate_caption env st
            (fsWrite fs (ospath_join UPLOAD_FOLDER (secure_filename img.filename))
              img.content)
            (ospath_join UPLOAD_FOLDER (secure_filename img.filename))).1)]⟩,
        fsWrite fs (ospath_join UPLOAD_FOLDER (secure_filename img.filename)) img.content,
        .save (ospath_join UPLOAD_FOLDER (secure_filename img.filename)) img.content ::
          (generate_caption env st
            (fsWrite fs (ospath_join UPLOAD_FOLDER (secure_filename img.filename))
              img.content)
            (ospath_join UPLOAD_FOLDER (secure_filename img.filename))).2⟩ := by
  unfold upload_image
  rw [h]
  simp only [fsSave_secure_ok img.filename hne fs img.content]

/-- A VQA invocation through a missing `vqa_pipeline` handle raises inside
the `try:` and is converted to the sentinel, whatever the image load does. -/
theorem answer_question_pipeline_no_handle (env : InferenceEnv) (st : ModuleState) (fs : FS)
    (p q : String) (h : st.vqa_pipeline = none) :
    answer_question_pipeline env st fs p q = ("Error answering question.", []) := by
  unfold answer_question_pipeline vqa_chain
  rw [h]
  cases ho : env.openConvert fs p with
  | error e => rfl
  | ok image => rfl

/-! ## The claims -/

/-- C1: a POST /upload whose multipart data has no file field named
`image` gets status 400 with exactly the body `{"error": "No image
uploaded"}`, the file system is unchanged, and no external action is
performed. -/
theorem upload_missing_image_field (env : InferenceEnv) (st : ModuleState) (fs : FS)
    (req : Request) (h : req.files.lookup "image" = none) :
    upload_image env st fs req =
      ⟨.ok ⟨400, [("error", "No image uploaded")]⟩, fs, []⟩ := by
  unfold upload_image
  rw [h]

/-- Witness for C1 at a concrete request with no file part. -/
theorem upload_missing_image_field_witness :
    upload_image envOk stFull [] reqNoFile =
      ⟨.ok ⟨400, [("error", "No image uploaded")]⟩, [], []⟩ :=
  upload_missing_image_field envOk stFull [] reqNoFile rfl

/-- C2: a POST /answer whose form data lacks `image` or lacks `question`
gets status 400 with exactly the body `{"error": "No image or question
provided"}`, no model invocation occurs (empty event trace), and the file
system is unchanged. -/
theorem answer_missing_field (env : InferenceEnv) (st : ModuleState) (fs : FS)
    (req : Request)
    (h : req.form.lookup "image" = none ∨ req.form.lookup "question" = none) :
    answer_image_question env st fs req =
      ⟨.ok ⟨400, [("error", "No image or question provided")]⟩, fs, []⟩ := by
  unfold answer_image_question
  rcases h with h | h
  · rw [h]
  · cases h1 : req.form.lookup "image" with
    | none => rfl
    | some u => rw [h]

/-- Witness for C2 at a concrete request missing the `question` field. -/
theorem answer_missing_field_witness :
    answer_image_question envOk stFull [] reqNoQuestion =
      ⟨.ok ⟨400, [("error", "No image or question provided")]⟩, [], []⟩ :=
  answer_missing_field envOk stFull [] reqNoQuestion (Or.inr rfl)

/-- C3: any failure inside caption generation or question answering is
caught and converted to the fixed sentinel string (`"Error generating
caption."` / `"Error answering question."`), and the /answer route wraps
the helper's string in an HTTP 200 response — an inference failure never
escapes as an unhandled fault or an error status. -/
theorem inference_failure_sentinel (env : InferenceEnv) (st : ModuleState) (fs : FS)
    (path question : String) (req : Request) (b : Bool)
    (hcap : exceptFailed (caption_chain env st fs path).1 = true)
    (hvqa : exceptFailed (vqa_chain env st fs path question).1 = true)
    (hqa : exceptFailed (qa_chain env st fs path question).1 = true)
    (hb : st.use_pipeline = some b)
    (himg : (req.form.lookup "image").isSome = true)
    (hq : (req.form.lookup "question").isSome = true) :
    (generate_caption env st fs path).1 = "Error generating caption." ∧
    (answer_question_pipeline env st fs path question).1 = "Error answering question." ∧
    (answer_question_model env st fs path question).1 = "Error answering question." ∧
    ∃ ans, (answer_image_question env st fs req).result = .ok ⟨200, [("answer", ans)]⟩ := by
  refine ⟨?_, ?_, ?_, ?_⟩
  · unfold generate_caption
    cases hc : caption_chain env st fs path with
    | mk r evs =>
      rw [hc] at hcap
      cases r with
      | ok v => simp [exceptFailed] at hcap
      | error e => rfl
  · unfold answer_question_pipeline
    cases hc : vqa_chain env st fs path question with
    | mk r evs =>
      rw [hc] at hvqa
      cases r with
      | ok v => simp [exceptFailed] at hvqa
      | error e => rfl
  · unfold answer_question_model
    cases hc : qa_chain env st fs path question with
    | mk r evs =>
      rw [hc] at hqa
      cases r with
      | ok v => simp [exceptFailed] at hqa
      | error e => rfl
  · obtain ⟨u, hu⟩ := Option.isSome_iff_exists.mp himg
    obtain ⟨qv, hq2⟩ := Option.isSome_iff_exists.mp hq
    unfold answer_image_question
    rw [hu, hq2, hb]
    exact ⟨_, rfl⟩

/-- Witness for C3: an unreadable image makes every chain fail, and the
/answer route still returns a 200 with the sentinel. -/
theorem inference_failure_sentinel_witness :
    (generate_caption envBadImage stFull [] "static/uploads/cat.jpg").1 =
      "Error generating caption." ∧
    (answer_question_pipeline envBadImage stFull [] "static/uploads/cat.jpg"
      "what color").1 = "Error answering question." ∧
    (answer_question_model envBadImage stFull [] "static/uploads/cat.jpg"
      "what color").1 = "Error answering question." ∧
    ∃ ans, (answer_image_question envBadImage stFull [] reqAnswer).result =
      .ok ⟨200, [("answer", ans)]⟩ :=
  inference_failure_sentinel envBadImage stFull [] "static/uploads/cat.jpg" "what color"
    reqAnswer true rfl rfl rfl rfl rfl rfl

/-- C4: when the VQA invocation succeeds, `answer_question_pipeline`
returns the first candidate's answer, and the sentinel `"No answer
found."` when the model returns no candidates. -/
theorem vqa_top_answer_or_no_answer (env : InferenceEnv) (st : ModuleState) (fs : FS)
    (path question : String) (cands : List VqaCandidate)
    (h : (vqa_chain env st fs path question).1 = .ok cands) :
    (cands = [] →
      (answer_question_pipeline env st fs path question).1 = "No answer found.") ∧
    ∀ c rest, cands = c :: rest →
      (answer_question_pipeline env st fs path question).1 = c.answer := by
  constructor
  · intro hc
    subst hc
    unfold answer_question_pipeline
    generalize vqa_chain env st fs path question = p at h ⊢
    obtain ⟨r, evs⟩ := p
    replace h : r = Except.ok [] := h
    subst h
    rfl
  · intro c rest hc
    subst hc
    unfold answer_question_pipeline
    generalize vqa_chain env st fs path question = p at h ⊢
    obtain ⟨r, evs⟩ := p
    replace h : r = Except.ok (c :: rest) := h
    subst h
    rfl

/-- Witness for C4: the model returns two candidates and the top answer is
reported. -/
theorem vqa_top_answer_or_no_answer_witness :
    (answer_question_pipeline envOk stFull [] "static/uploads/cat.jpg" "what color").1 =
      "yes" :=
  (vqa_top_answer_or_no_answer envOk stFull [] "static/uploads/cat.jpg" "what color"
    [⟨"yes", 9⟩, ⟨"no", 1⟩] rfl).2 ⟨"yes", 9⟩ [⟨"no", 1⟩] rfl

/-- C5: a successful upload (one with a file part whose name sanitizes to
a non-empty storage name, so the save does not raise) returns `image_url =
"/static/uploads/" ++ secure_filename(original filename)`, and the suffix
of that URL after its last path separator is exactly the sanitized
filename. -/
theorem upload_url_sanitized_suffix (env : InferenceEnv) (st : ModuleState) (fs : FS)
    (req : Request) (img : FileStorage)
    (h : req.files.lookup "image" = some img)
    (hne : secure_filename img.filename ≠ "") :
    ∃ cap,
      (upload_image env st fs req).result =
        .ok ⟨200, [("image_url", "/static/uploads/" ++ secure_filename img.filename),
          ("caption", cap)]⟩ ∧
      lastSeg ("/static/uploads/" ++ secure_filename img.filename) =
        secure_filename img.filename := by
  refine ⟨(generate_caption env st
      (fsWrite fs (ospath_join UPLOAD_FOLDER (secure_filename img.filename)) img.content)
      (ospath_join UPLOAD_FOLDER (secure_filename img.filename))).1,
    ?_, lastSeg_secure_filename img.filename⟩
  rw [upload_image_stores env st fs req img h hne]

/-- Witness for C5 at a concrete `cat.jpg` upload. -/
theorem upload_url_sanitized_suffix_witness :
    ∃ cap,
      (upload_image envOk stFull [] reqUpload).result =
        .ok ⟨200, [("image_url", "/static/uploads/cat.jpg"), ("caption", cap)]⟩ ∧
      lastSeg "/static/uploads/cat.jpg" = "cat.jpg" :=
  upload_url_sanitized_suffix envOk stFull [] reqUpload ⟨"cat.jpg", [1, 2, 3]⟩ rfl
    (by decide)

/-- C6: round-trip between upload and answer — for an upload that stores
a file (non-empty sanitized name), the storage path the /answer handler
reconstructs from the returned URL (suffix after the last `/`, joined with
the upload folder) is exactly the path the upload stored the file at, and
reading it back yields the uploaded bytes. -/
theorem upload_answer_path_roundtrip (env : InferenceEnv) (st : ModuleState) (fs : FS)
    (req : Request) (img : FileStorage)
    (h : req.files.lookup "image" = some img)
    (hne : secure_filename img.filename ≠ "") :
    reconstruct_path ("/static/uploads/" ++ secure_filename img.filename) =
      ospath_join UPLOAD_FOLDER (secure_filename img.filename) ∧
    fsRead (upload_image env st fs req).fs
        (reconstruct_path ("/static/uploads/" ++ secure_filename img.filename)) =
      some img.content := by
  have hrp : reconstruct_path ("/static/uploads/" ++ secure_filename img.filename) =
      ospath_join UPLOAD_FOLDER (secure_filename img.filename) := by
    unfold reconstruct_path
    rw [lastSeg_secure_filename]
  refine ⟨hrp, ?_⟩
  rw [upload_image_stores env st fs req img h hne, hrp]
  exact fsRead_fsWrite _ _ _

/-- Witness for C6 at a concrete `cat.jpg` upload. -/
theorem upload_answer_path_roundtrip_witness :
    reconstruct_path "/static/uploads/cat.jpg" = "static/uploads/cat.jpg" ∧
    fsRead (upload_image envOk stFull [] reqUpload).fs
        (reconstruct_path "/static/uploads/cat.jpg") = some [1, 2, 3] :=
  upload_answer_path_roundtrip envOk stFull [] reqUpload ⟨"cat.jpg", [1, 2, 3]⟩ rfl
    (by decide)

/-- C7: when any startup load fails, the error is logged, the remaining
handles stay unset, and a well-formed /answer request fails per-request —
either the handler raises (framework 500) because `use_pipeline` is unset,
or it returns 200 with the sentinel because `vqa_pipeline` is unset — with
the file system untouched; startup itself always completes. -/
theorem degraded_startup_per_request (lenv : LoadEnv) (env : InferenceEnv) (fs : FS)
    (req : Request)
    (hfail : exceptFailed lenv.loadCaptionModel = true ∨
      exceptFailed lenv.loadCaptionProcessor = true ∨
      exceptFailed lenv.loadVqaPipeline = true)
    (himg : (req.form.lookup "image").isSome = true)
    (hq : (req.form.lookup "question").isSome = true) :
    (startup lenv).2 ≠ [] ∧
    (answer_image_question env (startup lenv).1 fs req).fs = fs ∧
    ((∃ e, (answer_image_question env (startup lenv).1 fs req).result = .error e) ∨
      (answer_image_question env (startup lenv).1 fs req).result =
        .ok ⟨200, [("answer", "Error answering question.")]⟩) := by
  obtain ⟨u, hu⟩ := Option.isSome_iff_exists.mp himg
  obtain ⟨qv, hq2⟩ := Option.isSome_iff_exists.mp hq
  cases hcm : lenv.loadCaptionModel with
  | error e =>
    refine ⟨by simp [startup, hcm], ?_,
      Or.inl ⟨⟨"NameError: name use_pipeline is not defined"⟩, ?_⟩⟩
    · simp [answer_image_question, hu, hq2, startup, hcm]
    · simp [answer_image_question, hu, hq2, startup, hcm]
  | ok cm =>
    cases hcp : lenv.loadCaptionProcessor with
    | error e =>
      refine ⟨by simp [startup, hcm, hcp], ?_,
        Or.inl ⟨⟨"NameError: name use_pipeline is not defined"⟩, ?_⟩⟩
      · simp [answer_image_question, hu, hq2, startup, hcm, hcp]
      · simp [answer_image_question, hu, hq2, startup, hcm, hcp]
    | ok cp =>
      cases hvp : lenv.loadVqaPipeline with
      | error e =>
        have hpl := answer_question_pipeline_no_handle env
          ⟨some cm, some cp, some true, none, none, none⟩ fs (reconstruct_path u) qv rfl
        refine ⟨by simp [startup, hcm, hcp, hvp], ?_, Or.inr ?_⟩
        · simp [answer_image_question, hu, hq2, startup, hcm, hcp, hvp]
        · simp [answer_image_question, hu, hq2, startup, hcm, hcp, hvp, hpl]
      | ok vp =>
        exfalso
        rcases hfail with h | h | h <;>
          simp [hcm, hcp, hvp, exceptFailed] at h

/-- Witness for C7: the VQA pipeline load fails; a well-formed /answer
request gets a 200 sentinel, the file system untouched. -/
theorem degraded_startup_per_request_witness :
    (startup lenvVqaFail).2 ≠ [] ∧
    (answer_image_question envOk (startup lenvVqaFail).1 [] reqAnswer).fs = [] ∧
    ((∃ e, (answer_image_question envOk (startup lenvVqaFail).1 [] reqAnswer).result =
        .error e) ∨
      (answer_image_question envOk (startup lenvVqaFail).1 [] reqAnswer).result =
        .ok ⟨200, [("answer", "Error answering question.")]⟩) :=
  degraded_startup_per_request lenvVqaFail envOk [] reqAnswer (Or.inr (Or.inr rfl)) rfl rfl

/-- C8: two successive uploads whose filenames sanitize to the same
(non-empty) storage name: the second succeeds with a 200 and silently
overwrites the first — the storage path derived from the first upload's
filename now holds the second upload's bytes. -/
theorem upload_overwrite_last_writer (env : InferenceEnv) (st : ModuleState) (fs : FS)
    (r1 r2 : Request) (i1 i2 : FileStorage)
    (h1 : r1.files.lookup "image" = some i1)
    (h2 : r2.files.lookup "image" = some i2)
    (hsame : secure_filename i1.filename = secure_filename i2.filename)
    (hne : secure_filename i2.filename ≠ "") :
    ∃ body,
      (upload_image env st (upload_image env st fs r1).fs r2).result = .ok ⟨200, body⟩ ∧
      fsRead (upload_image env st (upload_image env st fs r1).fs r2).fs
          (ospath_join UPLOAD_FOLDER (secure_filename i1.filename)) = some i2.content := by
  have hne1 : secure_filename i1.filename ≠ "" := by
    rw [hsame]
    exact hne
  rw [upload_image_stores env st fs r1 i1 h1 hne1]
  rw [upload_image_stores env st _ r2 i2 h2 hne]
  refine ⟨_, rfl, ?_⟩
  rw [hsame]
  exact fsRead_fsWrite _ _ _

/-- Witness for C8: uploading `cat.jpg` twice, the stored file holds the
second contents. -/
theorem upload_overwrite_last_writer_witness :
    ∃ body,
      (upload_image envOk stFull (upload_image envOk stFull [] reqUpload).fs
        reqUpload2).result = .ok ⟨200, body⟩ ∧
      fsRead (upload_image envOk stFull (upload_image envOk stFull [] reqUpload).fs
          reqUpload2).fs "static/uploads/cat.jpg" = some [9, 9] :=
  upload_overwrite_last_writer envOk stFull [] reqUpload reqUpload2
    ⟨"cat.jpg", [1, 2, 3]⟩ ⟨"cat.jpg", [9, 9]⟩ rfl rfl rfl (by decide)

/-- C9: an /answer request never changes the file system, and repeating
the identical request against the resulting state yields the identical
outcome — the second request takes the same code path as the first. -/
theorem answer_state_unchanged (env : InferenceEnv) (st : ModuleState) (fs : FS)
    (req : Request) :
    (answer_image_question env st fs req).fs = fs ∧
    answer_image_question env st (answer_image_question env st fs req).fs req =
      answer_image_question env st fs req := by
  have hfs : (answer_image_question env st fs req).fs = fs := by
    unfold answer_image_question
    cases h1 : req.form.lookup "image" with
    | none => rfl
    | some u =>
      cases h2 : req.form.lookup "question" with
      | none => rfl
      | some q =>
        cases hb : st.use_pipeline with
        | none => rfl
        | some b => rfl
  exact ⟨hfs, by rw [hfs]⟩

/-- C10: a file field present under `image` whose filename sanitizes to
the empty string does not take the 400 branch: the handler joins the
upload folder with the empty string (yielding `"static/uploads/"`) and
attempts the save there.  That save targets the existing upload directory,
so it raises `IsADirectoryError`, which escapes the handler as a framework
500 — the missing-image 400 is never returned and nothing is written. -/
theorem upload_empty_filename_no_400 (env : InferenceEnv) (st : ModuleState) (fs : FS)
    (req : Request) (img : FileStorage)
    (h : req.files.lookup "image" = some img)
    (hempty : secure_filename img.filename = "") :
    upload_image env st fs req =
      ⟨.error ⟨"IsADirectoryError"⟩, fs, [.save "static/uploads/" img.content]⟩ := by
  unfold upload_image
  rw [h]
  simp only [hempty]
  rfl

/-- Witness for C10: an upload whose file part carries an empty filename
skips the 400 branch, attempts the save at the bare upload-folder path,
and the save raises. -/
theorem upload_empty_filename_no_400_witness :
    upload_image envOk stFull [] reqUploadEmptyName =
      ⟨.error ⟨"IsADirectoryError"⟩, [], [.save "static/uploads/" [4, 5]]⟩ :=
  upload_empty_filename_no_400 envOk stFull [] reqUploadEmptyName ⟨"", [4, 5]⟩ rfl rfl

end App
